import Mathlib

/-!
Shallow embedding of the `marzban-smart-node` repository
(`src/smart_api_handler.py` and `src/smart_curlscript.py`).

The two scripts are sequential glue around the `requests` HTTP library and
a paramiko SSH session.  The embedding abstracts the network as an
environment value (`NetOutcome`) describing, for each HTTP request the
script issues, either a transport-level failure (any
`requests.exceptions.RequestException` raised while sending) or a response
with a status code and a parsed JSON object body (modelled as a flat
association list of string fields; non-string and non-flat JSON values do
not occur in the fields the scripts read).  Remote SSH execution is
abstracted as an environment function from command text to
stdout/stderr/exit status.

Python-level behaviours that matter to the claims are modelled explicitly:
  * `response.raise_for_status()` raises `HTTPError` (a subclass of
    `RequestException`) exactly when `400 <= status_code < 600`;
  * `dict.get(k)` yields `None` when the key is absent, while `dict[k]`
    raises an uncaught `KeyError`;
  * `int(s)` raises an uncaught `ValueError` on strings that do not parse
    as a Python integer literal (optional surrounding whitespace, optional
    sign, digits with single interior underscores);
  * Python truthiness of `None` and `""` (both falsy) at each
    `if not x:` check in the `__main__` blocks;
  * an uncaught exception terminates the interpreter with exit code 1;
  * `print(s)` writes `s` followed by one newline to stdout (all logging
    in both scripts goes to stderr).
-/

/-- Result of a Python function call: a normal return value, or an
exception that escapes the function (with the exception class name). -/
inductive PyResult (α : Type) where
  | val (a : α)
  | exn (cls : String)
deriving DecidableEq, Repr

/-- Environment view of one HTTP request: transport failure
(`requests.exceptions.RequestException` while sending), or a response
with a status code and parsed JSON-object body fields. -/
inductive NetOutcome where
  | failure
  | response (status : Nat) (fields : List (String × String))
deriving DecidableEq, Repr

/-- `requests.Response.raise_for_status` raises exactly for
`400 <= status_code < 600`. -/
def httpError (s : Nat) : Bool :=
  if 400 ≤ s ∧ s < 600 then true else false

/-- JSON object field access, `dict.get(k)` style. -/
def jGet (fields : List (String × String)) (k : String) : Option String :=
  List.lookup k fields

/-- Python truthiness of an optional string (`None` and `""` are falsy). -/
def truthyStr : Option String → Bool
  | none => false
  | some s => if s = "" then false else true

/-- Python truthiness of a `PyResult (Option String)` as tested by
`if not x:` after a call that returned normally; an escaped exception
never reaches the test, we count it as "stage not ok". -/
def pyOkOpt : PyResult (Option String) → Bool
  | .val o => truthyStr o
  | .exn _ => false

/-- Stage-success reading of a `PyResult Bool`. -/
def pyOkBool : PyResult Bool → Bool
  | .val b => b
  | .exn _ => false

/-- Characters Python `str.strip()` removes (ASCII whitespace; the scripts
only ever strip command output). -/
def isPyWs (c : Char) : Bool :=
  c = ' ' || c = '\t' || c = '\n' || c = '\r' || c = '\x0b' || c = '\x0c'

/-- Python `str.strip()`. -/
def pyStrip (s : String) : String :=
  ⟨((s.data.dropWhile isPyWs).reverse.dropWhile isPyWs).reverse⟩

/-- Digit run continuation for Python integer literals: after one digit,
the rest is digits with single interior underscores. -/
def pyDigitsRest : List Char → Bool
  | [] => true
  | '_' :: c :: rest => c.isDigit && pyDigitsRest rest
  | ['_'] => false
  | c :: rest => c.isDigit && pyDigitsRest rest

/-- Nonempty digit group for Python `int()`. -/
def pyDigits : List Char → Bool
  | [] => false
  | c :: rest => c.isDigit && pyDigitsRest rest

/-- Whether Python `int(s)` succeeds (`True`) or raises `ValueError`. -/
def pyIntValid (s : String) : Bool :=
  match (s.data.dropWhile isPyWs).reverse.dropWhile isPyWs |>.reverse with
  | '+' :: rest => pyDigits rest
  | '-' :: rest => pyDigits rest
  | cs => pyDigits cs

namespace ApiHandler

/-!  Model of `src/smart_api_handler.py`. -/

/-- Dynamically-typed Python value as passed to the panel helpers: the
buggy `__main__` passes a `bool` where a port string is expected. -/
inductive PyVal where
  | vstr (s : String)
  | vbool (b : Bool)
deriving DecidableEq, Repr

/-- Python `f"{v}"` rendering (`True`/`False` for bools). -/
def pyFormat : PyVal → String
  | .vstr s => s
  | .vbool b => if b then "True" else "False"

/-- Python `v == lit` where `lit` is a string literal: a bool never equals
a string. -/
def pyEqStr : PyVal → String → Bool
  | .vstr s, t => s = t
  | .vbool _, _ => false

/-- URL construction shared by `get_token`, `get_client_cert` and
`add_node_to_panel` (lines 16-19, 34-37, 52-55): the port suffix is
omitted only for http/80 and https/443. -/
def panelApiUrl (panel_protocol panel_domain panel_port : PyVal)
    (endpoint : String) : String :=
  let base := pyFormat panel_protocol ++ "://" ++ pyFormat panel_domain
  let base :=
    if (pyEqStr panel_protocol "http" && pyEqStr panel_port "80")
        || (pyEqStr panel_protocol "https" && pyEqStr panel_port "443") then
      base
    else
      base ++ ":" ++ pyFormat panel_port
  base ++ endpoint

/-- `get_token` (lines 14-30): POST, `raise_for_status`, then
`response.json().get("access_token")`; every `RequestException` is caught
and yields `None`. -/
def get_token (net : NetOutcome) : PyResult (Option String) :=
  match net with
  | .failure => .val none
  | .response s fields =>
    if httpError s then .val none
    else .val (jGet fields "access_token")

/-- `get_client_cert` (lines 32-48): GET, `raise_for_status`, then
`response.json().get("certificate")`; `RequestException` yields `None`. -/
def get_client_cert (net : NetOutcome) : PyResult (Option String) :=
  match net with
  | .failure => .val none
  | .response s fields =>
    if httpError s then .val none
    else .val (jGet fields "certificate")

/-- Diagnostic log entries of `add_node_to_panel`, keeping exactly the
data each `log_py` call interpolates beyond fixed text. -/
inductive PanelLog where
  | attemptAdd
  | addedOk
  | addFailStatus (status : Nat) (body : List (String × String))
  | addFailExn (status : Option Nat)
deriving DecidableEq, Repr

/-- Outcome of `add_node_to_panel`: the Python-level result, whether the
HTTP POST was actually issued, and the diagnostic log. -/
structure AddOut where
  result : PyResult Bool
  requested : Bool
  log : List PanelLog
deriving DecidableEq, Repr

/-- `add_node_to_panel` (lines 50-84): logs the attempt, builds
`node_information` with `int(service_port)` / `int(api_port)` (an invalid
port raises `ValueError` before the POST, uncaught), POSTs,
`raise_for_status` (so `RequestException` — carrying the status for
`HTTPError`, none for transport failure — yields `False` with a log line
that does not include the body), then checks `status_code in [200, 201]`
(only the failing branch of that check logs the parsed body). -/
def add_node_to_panel (service_port api_port : String) (net : NetOutcome) :
    AddOut :=
  if pyIntValid service_port && pyIntValid api_port then
    match net with
    | .failure =>
      ⟨.val false, true, [.attemptAdd, .addFailExn none]⟩
    | .response s fields =>
      if httpError s then
        ⟨.val false, true, [.attemptAdd, .addFailExn (some s)]⟩
      else if s = 200 ∨ s = 201 then
        ⟨.val true, true, [.attemptAdd, .addedOk]⟩
      else
        ⟨.val false, true, [.attemptAdd, .addFailStatus s fields]⟩
  else
    ⟨.exn "ValueError", false, [.attemptAdd]⟩

end ApiHandler

namespace CurlScript

/-!  Model of `src/smart_curlscript.py` (panel-client half). -/

/-- `get_access_token` (lines 21-38): POST form data, `raise_for_status`,
then the subscript `response.json()[...]` on the access_token key, so a non-error
response missing the field raises an uncaught `KeyError`. -/
def get_access_token (net : NetOutcome) : PyResult (Option String) :=
  match net with
  | .failure => .val none
  | .response s fields =>
    if httpError s then .val none
    else
      match jGet fields "access_token" with
      | some t => .val (some t)
      | none => .exn "KeyError"

/-- `get_cert` (lines 40-56): GET, `raise_for_status`, then
`cert["certificate"]` — a subscript, so a missing field raises an
uncaught `KeyError`. -/
def get_cert (net : NetOutcome) : PyResult (Option String) :=
  match net with
  | .failure => .val none
  | .response s fields =>
    if httpError s then .val none
    else
      match jGet fields "certificate" with
      | some c => .val (some c)
      | none => .exn "KeyError"

/-- Outcome of the curlscript `add_node_to_panel`. -/
structure AddOut where
  result : PyResult Bool
  requested : Bool
deriving DecidableEq, Repr

/-- `add_node_to_panel` (lines 58-84): builds `node_information` with
`int(service_port)` / `int(api_port)` (uncaught `ValueError` before the
POST on invalid ports), POSTs, `raise_for_status`; any non-error status
returns `True` — there is no `status_code in [200, 201]` check in this
variant. -/
def add_node_to_panel (service_port api_port : String) (net : NetOutcome) :
    AddOut :=
  if pyIntValid service_port && pyIntValid api_port then
    match net with
    | .failure => ⟨.val false, true⟩
    | .response s _ =>
      if httpError s then ⟨.val false, true⟩ else ⟨.val true, true⟩
  else
    ⟨.exn "ValueError", false⟩

/-- Result of executing one remote command: captured stdout, captured
stderr, exit status (`recv_exit_status`). -/
structure ExecResult where
  out : String
  err : String
  status : Nat
deriving DecidableEq, Repr

/-- Environment view of `paramiko.SSHClient.connect` plus the remote
side.  `connect` can fail three ways the code treats differently:
`paramiko.AuthenticationException` (bad credentials, caught at line 128);
another `paramiko.SSHException` (an SSH protocol-level failure, caught at
line 131 with the distinct "SSH connection failed" message); or a
non-`SSHException` error — an unreachable host or port raises
`NoValidConnectionsError` or `socket.timeout`, subclasses of
`socket.error`/`OSError`, not of `SSHException` — which falls through to
the generic `except Exception` handler at line 134 (`otherExnFail`
carries `str(e)`, the text interpolated into that generic message). -/
inductive SshConn where
  | authFail
  | sshExnFail
  | otherExnFail (emsg : String)
  | ok (exec : String → ExecResult)

/-- Diagnostic log entries of `run_ssh_commands_on_node`, keeping exactly
the data each `logging` call interpolates beyond fixed text.
`connError` is the "SSH connection failed" message of line 132, emitted
only in the `except SSHException` branch; `errorDuring` is the generic
"Error during SSH command execution" wrapper of line 135, emitted both
for a failed command (whose raised message it carries) and for any
non-`SSHException` connect error such as an unreachable host or port. -/
inductive SshLog where
  | connecting
  | established
  | executing (cmd : String)
  | cmdOk (out : String)
  | cmdFail (status : Nat) (err : String)
  | errorDuring (msg : String)
  | authError
  | connError
  | closed
deriving DecidableEq, Repr

/-- Outcome of `run_ssh_commands_on_node`: the commands actually executed
(in order), the diagnostic log, and the returned boolean. -/
structure SshRun where
  executed : List String
  log : List SshLog
  result : Bool
deriving DecidableEq, Repr

/-- Bootstrap command 8 of 9 (line 109): write the certificate through a
double-quoted shell `echo` redirected to the fixed remote path. -/
def certWriteCmd (cert_content : String) : String :=
  "sudo echo \x22" ++ cert_content
    ++ "\x22 > /var/lib/marzban-node/ssl_client_cert.pem"

/-- Bootstrap command 9 of 9 (line 112): regenerate `docker-compose.yml`
(the Python f-string contains literal newlines via `\n` and literal
`\"` sequences via `\\\x22`) and start the composition. -/
def composeCmd (home : String) : String :=
  "cd " ++ home ++ "/Marzban-node && sudo bash -c \x27echo \x22services:\n  marzban-node:\n    image: gozargah/marzban-node:latest\n    restart: always\n    network_mode: host\n    environment:\n      SSL_CLIENT_CERT_FILE: \\\x22/var/lib/marzban-node/ssl_client_cert.pem\\\x22\n      SERVICE_PORT: \\\x2262050\\\x22\n      XRAY_API_PORT: \\\x2262051\\\x22\n    volumes:\n      - /var/lib/marzban-node:/var/lib/marzban-node\n      - /var/lib/marzban:/var/lib/marzban\x22 > docker-compose.yml && sudo docker compose up -d\x27"

/-- The fixed bootstrap command sequence (lines 98-113).  `home` is
`os.path.expanduser("~")`, expanded on the machine running the script;
`62050`/`62051` are `DEFAULT_SERVICE_PORT`/`DEFAULT_API_PORT`. -/
def sshCommands (home cert_content : String) : List String :=
  [ "sudo ufw disable",
    "curl -fsSL https://get.docker.com | sh",
    "[ -d " ++ home ++ "/Marzban-node ] && sudo rm -rf " ++ home
      ++ "/Marzban-node",
    "git clone https://github.com/Gozargah/Marzban-node " ++ home
      ++ "/Marzban-node",
    "cd " ++ home
      ++ "/Marzban-node && sudo docker compose up -d && sudo docker compose down",
    "sudo rm -f " ++ home ++ "/Marzban-node/docker-compose.yml",
    "sudo mkdir -p /var/lib/marzban-node",
    certWriteCmd cert_content,
    composeCmd home ]

/-- State of the command loop after it stops: commands executed (in
order), log entries produced, and whether every command exited 0. -/
structure LoopOut where
  executed : List String
  log : List SshLog
  ok : Bool
deriving DecidableEq, Repr

/-- The command loop of `run_ssh_commands_on_node` (lines 115-126): log
the command, execute, strip both captured streams; exit status 0 logs the
output and continues, a non-zero status logs the status with the stripped
stderr, then raises `Exception(f"SSH command failed: {command}")`, which
the generic `except Exception` handler (line 134) logs and converts to
`False` — so no later command runs. -/
def runCmds (exec : String → ExecResult) : List String → LoopOut
  | [] => ⟨[], [], true⟩
  | cmd :: rest =>
    let r := exec cmd
    if r.status = 0 then
      let k := runCmds exec rest
      ⟨cmd :: k.executed,
        .executing cmd :: .cmdOk (pyStrip r.out) :: k.log, k.ok⟩
    else
      ⟨[cmd],
        [.executing cmd, .cmdFail r.status (pyStrip r.err),
          .errorDuring ("SSH command failed: " ++ cmd)],
        false⟩

/-- `run_ssh_commands_on_node` (lines 86-140): connect — an
`AuthenticationException` logs the authentication message, another
`SSHException` logs the distinct "SSH connection failed" message, and any
other connect error (e.g. unreachable host/port raising
`NoValidConnectionsError`/`socket.timeout`) reaches only the generic
`except Exception` handler, which logs the generic wrapper with `str(e)`;
all three return `False`.  Otherwise run the fixed command sequence.
The client is closed in `finally` on every path, and `True` is returned
only when every command exited 0. -/
def run_ssh_commands_on_node (conn : SshConn) (home cert_content : String) :
    SshRun :=
  match conn with
  | .authFail => ⟨[], [.connecting, .authError, .closed], false⟩
  | .sshExnFail => ⟨[], [.connecting, .connError, .closed], false⟩
  | .otherExnFail emsg =>
    ⟨[], [.connecting, .errorDuring emsg, .closed], false⟩
  | .ok exec =>
    let k := runCmds exec (sshCommands home cert_content)
    ⟨k.executed, .connecting :: .established :: k.log ++ [.closed], k.ok⟩

end CurlScript

/-! ### Remote shell semantics for the certificate write

A minimal evaluator for commands of the exact shape
`sudo echo "CONTENT" > PATH` as a POSIX shell runs them: the double-quoted
region is taken literally (the model returns `none` — "not a plain
write" — when the region contains a character that is special inside
double quotes: `"` ends the region early, and `\`, `$`, backtick trigger
escapes/expansion), and `echo` writes the content followed by one
newline into the redirect target. -/

/-- Characters with special meaning inside POSIX double quotes. -/
def dqSpecial (c : Char) : Bool :=
  c = '\x22' || c = '\\' || c = '$' || c = '\x60'

/-- Scan a double-quoted region: literal content up to the closing quote,
plus the remainder after it; `none` when the region is unterminated or
uses shell-special characters (whose effect this model does not follow). -/
def dqScan : List Char → Option (List Char × List Char)
  | [] => none
  | c :: rest =>
    if c = '\x22' then some ([], rest)
    else if dqSpecial c then none
    else
      match dqScan rest with
      | some (content, tail) => some (c :: content, tail)
      | none => none

/-- Strip an expected literal prefix from a character list. -/
def dropPre : List Char → List Char → Option (List Char)
  | [], cs => some cs
  | _ :: _, [] => none
  | p :: ps, c :: cs => if c = p then dropPre ps cs else none

/-- Bytes a POSIX shell writes for a command of the exact shape
`sudo echo "CONTENT" > PATH`: `(PATH, CONTENT ++ newline)`, or `none`
when the command does not have that plain shape. -/
def echoWriteTarget (cmd : String) : Option (String × String) :=
  match dropPre ("sudo echo \x22").data cmd.data with
  | none => none
  | some rest =>
    match dqScan rest with
    | none => none
    | some (content, tail) =>
      match dropPre (" > ").data tail with
      | none => none
      | some pathChars =>
        if pathChars = [] then none
        else some (String.mk pathChars, String.mk content ++ "\n")

/-- Certificate strings with no character that is special inside shell
double quotes. -/
def shellPlain (s : String) : Prop :=
  ∀ c ∈ s.data, dqSpecial c = false

instance (s : String) : Decidable (shellPlain s) := by
  unfold shellPlain; infer_instance

/-! ### Orchestrators (`__main__` blocks) -/

/-- The pipeline stages an orchestrator can attempt. -/
inductive Step where
  | login
  | fetchCert
  | register
  | bootstrap
deriving DecidableEq, Repr

/-- Certificate value carried forward from a fetch-stage result (the
string passed to later stages once the truthiness check has passed). -/
def certOf : PyResult (Option String) → String
  | .val (some c) => c
  | .val none => ""
  | .exn _ => ""

namespace ApiHandler

/-- Network environment for one run of `smart_api_handler.py`: the
outcome of each of the three HTTP requests, and the two port arguments
(`sys.argv[8]`, `sys.argv[9]`). -/
structure Env where
  tokenNet : NetOutcome
  certNet : NetOutcome
  addNet : NetOutcome
  servicePort : String
  apiPort : String
deriving DecidableEq, Repr

/-- Observable outcome of one run: stages attempted, process exit code,
bytes written to stdout (all logging goes to stderr). -/
structure RunOut where
  trace : List Step
  exitCode : Nat
  stdout : String
deriving DecidableEq, Repr

/-- The `__main__` block (lines 86-119), from parsed arguments onward:
login, exit 1 on falsy token; fetch certificate, exit 1 on falsy result;
`print(cert_content)` to stdout (appending one newline); register the
node, exit 1 on failure (an uncaught `ValueError` from invalid ports also
terminates with exit code 1); else exit 0.  The buggy argument shift of
lines 105/109/116 does not change which stages run, since the network
environment already abstracts the outcome of each request. -/
def mainRun (env : Env) : RunOut :=
  match get_token env.tokenNet with
  | .exn _ => ⟨[.login], 1, ""⟩
  | .val t =>
    if truthyStr t then
      match get_client_cert env.certNet with
      | .exn _ => ⟨[.login, .fetchCert], 1, ""⟩
      | .val co =>
        if truthyStr co then
          let out := co.getD "" ++ "\n"
          match (add_node_to_panel env.servicePort env.apiPort
              env.addNet).result with
          | .exn _ => ⟨[.login, .fetchCert, .register], 1, out⟩
          | .val b =>
            if b then ⟨[.login, .fetchCert, .register], 0, out⟩
            else ⟨[.login, .fetchCert, .register], 1, out⟩
        else ⟨[.login, .fetchCert], 1, ""⟩
    else ⟨[.login], 1, ""⟩

/-- All three stages succeeded (Python-truthily), as `__main__` tests. -/
def allOk (env : Env) : Bool :=
  pyOkOpt (get_token env.tokenNet)
    && pyOkOpt (get_client_cert env.certNet)
    && pyOkBool (add_node_to_panel env.servicePort env.apiPort
        env.addNet).result

end ApiHandler

namespace CurlScript

/-- Environment for one run of the `smart_curlscript.py` `__main__`: the
outcome of each HTTP request, the SSH connection behaviour, the two port
inputs, and the local home directory used to build remote paths. -/
structure Env where
  tokenNet : NetOutcome
  certNet : NetOutcome
  addNet : NetOutcome
  conn : SshConn
  servicePort : String
  apiPort : String
  home : String

/-- Observable outcome of one combined-variant run. -/
structure RunOut where
  trace : List Step
  exitCode : Nat
deriving DecidableEq, Repr

/-- The `__main__` block (lines 143-228), from collected inputs onward:
login, fetch certificate, register, then bootstrap over SSH, each gated
on the truthy success of the previous stage, exiting 1 at the first failure
(uncaught `KeyError`/`ValueError` also terminate with exit code 1) and
falling off the end with exit code 0 on full success. -/
def mainRun (env : Env) : RunOut :=
  match get_access_token env.tokenNet with
  | .exn _ => ⟨[.login], 1⟩
  | .val t =>
    if truthyStr t then
      match get_cert env.certNet with
      | .exn _ => ⟨[.login, .fetchCert], 1⟩
      | .val co =>
        if truthyStr co then
          match (add_node_to_panel env.servicePort env.apiPort
              env.addNet).result with
          | .exn _ => ⟨[.login, .fetchCert, .register], 1⟩
          | .val b =>
            if b then
              if (run_ssh_commands_on_node env.conn env.home
                  (co.getD "")).result then
                ⟨[.login, .fetchCert, .register, .bootstrap], 0⟩
              else
                ⟨[.login, .fetchCert, .register, .bootstrap], 1⟩
            else ⟨[.login, .fetchCert, .register], 1⟩
        else ⟨[.login, .fetchCert], 1⟩
    else ⟨[.login], 1⟩

/-- All four stages succeeded, as `__main__` tests them. -/
def allOk (env : Env) : Bool :=
  pyOkOpt (get_access_token env.tokenNet)
    && pyOkOpt (get_cert env.certNet)
    && pyOkBool (add_node_to_panel env.servicePort env.apiPort
        env.addNet).result
    && (run_ssh_commands_on_node env.conn env.home
        (certOf (get_cert env.certNet))).result

end CurlScript

namespace ApiHandler

/-- `panel_protocol` as `__main__` computes it on line 103. -/
def panel_protocol (https_enabled : Bool) : String :=
  if https_enabled then "https" else "http"

/-- The (protocol, domain, port) argument triple `__main__` passes to
each of the three panel operations (lines 105, 109, 116):
`(panel_domain, panel_port, https_enabled)` — one position to the left of
the helper signature `(panel_protocol, panel_domain, panel_port)`, and
the computed `panel_protocol` is not among the arguments. -/
def mainCallArgs (panel_domain panel_port : String) (https_enabled : Bool) :
    PyVal × PyVal × PyVal :=
  (.vstr panel_domain, .vstr panel_port, .vbool https_enabled)

/-- The URL `get_token` builds when `__main__` (line 105) calls it with
the shifted arguments. -/
def mainTokenUrl (panel_domain panel_port : String) (https_enabled : Bool) :
    String :=
  panelApiUrl (.vstr panel_domain) (.vstr panel_port) (.vbool https_enabled)
    "/api/admin/token"

/-- The URL `get_client_cert` builds when `__main__` (line 109) calls it
with the shifted arguments. -/
def mainCertUrl (panel_domain panel_port : String) (https_enabled : Bool) :
    String :=
  panelApiUrl (.vstr panel_domain) (.vstr panel_port) (.vbool https_enabled)
    "/api/admin/nodes/certificate"

/-- The URL `add_node_to_panel` builds when `__main__` (line 116) calls
it with the shifted arguments. -/
def mainNodesUrl (panel_domain panel_port : String) (https_enabled : Bool) :
    String :=
  panelApiUrl (.vstr panel_domain) (.vstr panel_port) (.vbool https_enabled)
    "/api/admin/nodes"

end ApiHandler

/-! ### Concrete environments used by witnesses and counterexamples -/

/-- A combined-variant environment where the panel stages succeed and the
SSH connection rejects the credentials. -/
def curlEnvW : CurlScript.Env :=
  { tokenNet := .response 200 [("access_token", "tok")],
    certNet := .response 200 [("certificate", "CERTDATA")],
    addNet := .response 200 [],
    conn := .authFail,
    servicePort := "62050", apiPort := "62051", home := "/root" }

/-- A remote session where the second bootstrap command (the Docker
install) exits 7 with noisy stderr and every other command succeeds. -/
def execW : String → CurlScript.ExecResult :=
  fun s =>
    if s = "curl -fsSL https://get.docker.com | sh" then ⟨"", "  boom\n", 7⟩
    else ⟨"ok", "", 0⟩

/-- A remote session where every command fails immediately. -/
def execAllFail : String → CurlScript.ExecResult := fun _ => ⟨"", "err", 1⟩

/-- A handler-variant environment whose certificate fetch returns the
string `"abc"` and whose other stages succeed. -/
def apiEnvOkCert : ApiHandler.Env :=
  { tokenNet := .response 200 [("access_token", "tok")],
    certNet := .response 200 [("certificate", "abc")],
    addNet := .response 201 [],
    servicePort := "62050", apiPort := "62051" }

/-- A combined-variant environment where registration hits a 500 and the
earlier stages succeed. -/
def curlEnvAddFail : CurlScript.Env :=
  { tokenNet := .response 200 [("access_token", "tok")],
    certNet := .response 200 [("certificate", "CERTDATA")],
    addNet := .response 500 [("detail", "boom")],
    conn := .authFail,
    servicePort := "62050", apiPort := "62051", home := "/root" }

/-! ## Helper lemmas -/

/-- The command loop stops at the first command whose exit status is
non-zero: exactly the commands up to and including it run, the loop
reports failure, and the log carries the exit status with the stripped
stderr and the exception message naming the failed command. -/
theorem runCmds_first_fail (exec : String → CurlScript.ExecResult) :
    ∀ (pre : List String) (c : String) (post : List String),
    (∀ x ∈ pre, (exec x).status = 0) →
    (exec c).status ≠ 0 →
    (CurlScript.runCmds exec (pre ++ c :: post)).executed = pre ++ [c] ∧
    (CurlScript.runCmds exec (pre ++ c :: post)).ok = false ∧
    CurlScript.SshLog.cmdFail (exec c).status (pyStrip (exec c).err)
      ∈ (CurlScript.runCmds exec (pre ++ c :: post)).log ∧
    CurlScript.SshLog.errorDuring ("SSH command failed: " ++ c)
      ∈ (CurlScript.runCmds exec (pre ++ c :: post)).log
  | [], c, post, _, hc => by
    simp [CurlScript.runCmds, hc]
  | x :: pre, c, post, hpre, hc => by
    have hx : (exec x).status = 0 := hpre x (by simp)
    have ih := runCmds_first_fail exec pre c post
      (fun y hy => hpre y (List.mem_cons_of_mem x hy)) hc
    simp only [List.cons_append, CurlScript.runCmds, hx, if_pos rfl]
    refine ⟨by simp [ih.1], ih.2.1, ?_, ?_⟩
    · exact List.mem_cons_of_mem _ (List.mem_cons_of_mem _ ih.2.2.1)
    · exact List.mem_cons_of_mem _ (List.mem_cons_of_mem _ ih.2.2.2)

/-- The command loop never produces the authentication or connection
failure markers. -/
theorem runCmds_no_conn_markers (exec : String → CurlScript.ExecResult) :
    ∀ cmds : List String,
    CurlScript.SshLog.authError ∉ (CurlScript.runCmds exec cmds).log ∧
    CurlScript.SshLog.connError ∉ (CurlScript.runCmds exec cmds).log
  | [] => by simp [CurlScript.runCmds]
  | cmd :: rest => by
    have ih := runCmds_no_conn_markers exec rest
    by_cases h : (exec cmd).status = 0 <;>
      simp [CurlScript.runCmds, h, ih.1, ih.2]


/-! ## Claims -/

/-- C1: In every run of the combined (interactive) variant, the attempted
stages always form a prefix of login, fetch-certificate, register,
bootstrap (strict order, each stage at most once, so no automatic
retries); node registration is attempted only when the certificate fetch
succeeded (returned a truthy certificate), and the remote bootstrap
sequence is attempted only when `add_node_to_panel` reported success. -/
theorem curl_main_stage_order (env : CurlScript.Env) :
    ((CurlScript.mainRun env).trace = [.login] ∨
      (CurlScript.mainRun env).trace = [.login, .fetchCert] ∨
      (CurlScript.mainRun env).trace = [.login, .fetchCert, .register] ∨
      (CurlScript.mainRun env).trace
        = [.login, .fetchCert, .register, .bootstrap]) ∧
    (Step.register ∈ (CurlScript.mainRun env).trace →
      pyOkOpt (CurlScript.get_cert env.certNet) = true) ∧
    (Step.bootstrap ∈ (CurlScript.mainRun env).trace →
      pyOkBool (CurlScript.add_node_to_panel env.servicePort env.apiPort
          env.addNet).result = true) := by
  cases h1 : CurlScript.get_access_token env.tokenNet with
  | exn m => simp [CurlScript.mainRun, h1]
  | val t =>
    cases ht : truthyStr t with
    | false => simp [CurlScript.mainRun, h1, ht]
    | true =>
      cases h2 : CurlScript.get_cert env.certNet with
      | exn m => simp [CurlScript.mainRun, h1, ht, h2]
      | val co =>
        cases hc : truthyStr co with
        | false => simp [CurlScript.mainRun, h1, ht, h2, hc, pyOkOpt]
        | true =>
          cases h3 : (CurlScript.add_node_to_panel env.servicePort
              env.apiPort env.addNet).result with
          | exn m =>
            simp [CurlScript.mainRun, h1, ht, h2, hc, h3, pyOkOpt]
          | val b =>
            cases b with
            | false =>
              simp [CurlScript.mainRun, h1, ht, h2, hc, h3, pyOkOpt,
                pyOkBool]
            | true =>
              cases hs : (CurlScript.run_ssh_commands_on_node env.conn
                  env.home (co.getD "")).result <;>
                simp [CurlScript.mainRun, h1, ht, h2, hc, h3, hs, pyOkOpt,
                  pyOkBool]

/-- C1 witness: a concrete run that reaches the bootstrap stage, with the
certificate-fetch and registration success facts extracted through the
ordering theorem. -/
theorem curl_main_stage_order_witness :
    pyOkOpt (CurlScript.get_cert curlEnvW.certNet) = true ∧
    pyOkBool (CurlScript.add_node_to_panel curlEnvW.servicePort
        curlEnvW.apiPort curlEnvW.addNet).result = true :=
  ⟨(curl_main_stage_order curlEnvW).2.1 (by decide),
    (curl_main_stage_order curlEnvW).2.2 (by decide)⟩

/-- C2: If the command at some position of the bootstrap sequence
finishes with non-zero exit status (all earlier commands having exited
0), then exactly the commands up to and including that one were executed
— no later command runs — the runner reports failure, and the log names
the failed command (in the `SSH command failed` message) together with
its exit code and its captured (stripped) stderr. -/
theorem ssh_abort_on_first_failure (home cert : String)
    (exec : String → CurlScript.ExecResult)
    (pre : List String) (c : String) (post : List String)
    (hdecomp : CurlScript.sshCommands home cert = pre ++ c :: post)
    (hpre : ∀ x ∈ pre, (exec x).status = 0)
    (hc : (exec c).status ≠ 0) :
    (CurlScript.run_ssh_commands_on_node (.ok exec) home cert).executed
      = pre ++ [c] ∧
    (CurlScript.run_ssh_commands_on_node (.ok exec) home cert).result
      = false ∧
    CurlScript.SshLog.cmdFail (exec c).status (pyStrip (exec c).err)
      ∈ (CurlScript.run_ssh_commands_on_node (.ok exec) home cert).log ∧
    CurlScript.SshLog.errorDuring ("SSH command failed: " ++ c)
      ∈ (CurlScript.run_ssh_commands_on_node (.ok exec) home cert).log := by
  have h := runCmds_first_fail exec pre c post hpre hc
  simp only [CurlScript.run_ssh_commands_on_node, hdecomp]
  refine ⟨h.1, h.2.1, ?_, ?_⟩
  · simp [h.2.2.1]
  · simp [h.2.2.2]

/-- C2 witness: with a session where the second bootstrap command exits 7
with stderr `"  boom\n"` and every other command succeeds, only the first
two commands run, the runner reports failure, and the log carries exit
code 7, the stripped stderr `"boom"`, and the failed command. -/
theorem ssh_abort_on_first_failure_witness :
    (CurlScript.run_ssh_commands_on_node (.ok execW) "/root" "CERT").executed
      = ["sudo ufw disable", "curl -fsSL https://get.docker.com | sh"] ∧
    (CurlScript.run_ssh_commands_on_node (.ok execW) "/root" "CERT").result
      = false ∧
    CurlScript.SshLog.cmdFail 7 "boom"
      ∈ (CurlScript.run_ssh_commands_on_node (.ok execW) "/root" "CERT").log ∧
    CurlScript.SshLog.errorDuring
        ("SSH command failed: " ++ "curl -fsSL https://get.docker.com | sh")
      ∈ (CurlScript.run_ssh_commands_on_node (.ok execW) "/root" "CERT").log :=
  ssh_abort_on_first_failure "/root" "CERT" execW
    ["sudo ufw disable"] "curl -fsSL https://get.docker.com | sh"
    (List.drop 2 (CurlScript.sshCommands "/root" "CERT"))
    (by rfl) (by decide) (by decide)

/-- C3 counterexample: the claim ties a token result to HTTP 200
exactly, and an error result to any success response missing the field;
but a 201 response whose body carries `access_token` makes `get_token`
return the token (raise_for_status only raises for 400-599), and in the
curlscript variant a 200 response without the field raises an uncaught
`KeyError` instead of yielding the error result. -/
theorem login_claim_counterexample :
    ApiHandler.get_token (.response 201 [("access_token", "tok")])
      = .val (some "tok") ∧
    (201 : Nat) ≠ 200 ∧
    CurlScript.get_access_token (.response 200 [("detail", "x")])
      = .exn "KeyError" := by
  refine ⟨by decide, by decide, by decide⟩

/-- C3 amended: `Login` yields a token exactly when the HTTP response has
a status outside the 400-599 error range and its body contains the token
field; any network failure or 400-599 status yields the error result
(`None`).  A non-error response missing the field yields `None` in the
handler variant but raises an uncaught `KeyError` in the curlscript
variant. -/
theorem login_amended (s : Nat) (fields : List (String × String))
    (t : String) :
    (httpError s = false → jGet fields "access_token" = some t →
      ApiHandler.get_token (.response s fields) = .val (some t) ∧
      CurlScript.get_access_token (.response s fields) = .val (some t)) ∧
    (httpError s = true →
      ApiHandler.get_token (.response s fields) = .val none ∧
      CurlScript.get_access_token (.response s fields) = .val none) ∧
    (ApiHandler.get_token .failure = .val none ∧
      CurlScript.get_access_token .failure = .val none) ∧
    (httpError s = false → jGet fields "access_token" = none →
      ApiHandler.get_token (.response s fields) = .val none ∧
      CurlScript.get_access_token (.response s fields) = .exn "KeyError") ∧
    (∀ (net : NetOutcome) (u : String),
      ApiHandler.get_token net = .val (some u) →
      ∃ s2 f2, net = .response s2 f2 ∧ httpError s2 = false ∧
        jGet f2 "access_token" = some u) ∧
    (∀ (net : NetOutcome) (u : String),
      CurlScript.get_access_token net = .val (some u) →
      ∃ s2 f2, net = .response s2 f2 ∧ httpError s2 = false ∧
        jGet f2 "access_token" = some u) := by
  refine ⟨?_, ?_, ?_, ?_, ?_, ?_⟩
  · intro he hf
    simp [ApiHandler.get_token, CurlScript.get_access_token, he, hf]
  · intro he
    simp [ApiHandler.get_token, CurlScript.get_access_token, he]
  · exact ⟨rfl, rfl⟩
  · intro he hf
    simp [ApiHandler.get_token, CurlScript.get_access_token, he, hf]
  · intro net u h
    cases net with
    | failure => simp [ApiHandler.get_token] at h
    | response s2 f2 =>
      cases he : httpError s2 with
      | true => simp [ApiHandler.get_token, he] at h
      | false =>
        refine ⟨s2, f2, rfl, he, ?_⟩
        simpa [ApiHandler.get_token, he] using h
  · intro net u h
    cases net with
    | failure => simp [CurlScript.get_access_token] at h
    | response s2 f2 =>
      cases he : httpError s2 with
      | true => simp [CurlScript.get_access_token, he] at h
      | false =>
        cases hf : jGet f2 "access_token" with
        | none => simp [CurlScript.get_access_token, he, hf] at h
        | some v =>
          simp [CurlScript.get_access_token, he, hf] at h
          exact ⟨s2, f2, rfl, he, by rw [hf, h]⟩

/-- C3 amended witness: the amended theorem instantiated at a 201 token
response and a 404 response. -/
theorem login_amended_witness :
    ApiHandler.get_token (.response 201 [("access_token", "tok")])
      = .val (some "tok") ∧
    CurlScript.get_access_token (.response 404 [("detail", "x")])
      = .val none :=
  ⟨((login_amended 201 [("access_token", "tok")] "tok").1
      (by decide) (by decide)).1,
    ((login_amended 404 [("detail", "x")] "tok").2.1 (by decide)).2⟩

/-- C4 counterexample: the claim says any status other than 200/201
yields `RegisterError` with the response body surfaced; but the
curlscript variant returns success for a 202 response (it never checks
for 200/201), and for a 500 response the handler variant log carries
only the `HTTPError` (status, no body) — the body is never surfaced on
error statuses. -/
theorem register_claim_counterexample :
    (CurlScript.add_node_to_panel "62050" "62051"
        (.response 202 [("detail", "accepted")])).result = .val true ∧
    (ApiHandler.add_node_to_panel "62050" "62051"
        (.response 500 [("detail", "boom")])).log
      = [.attemptAdd, .addFailExn (some 500)] := by
  refine ⟨by decide, by decide⟩

/-- C4 amended: with integer-valid port strings, the handler variant
its `add_node_to_panel` succeeds exactly on status 200 or 201, fails on any
other status or network failure, and surfaces the response body only for
non-error statuses outside {200, 201} — for 400-599 statuses and network
failures it logs only the `RequestException` (status at most, never the
body).  The curlscript variant succeeds on every status outside the
400-599 error range (including 202) and fails otherwise, never surfacing
the body. -/
theorem register_amended (sp ap : String) (net : NetOutcome)
    (hsp : pyIntValid sp = true) (hap : pyIntValid ap = true) :
    ((ApiHandler.add_node_to_panel sp ap net).result = .val true ↔
      ∃ s f, net = .response s f ∧ (s = 200 ∨ s = 201)) ∧
    (∀ s f, net = .response s f → httpError s = true →
      (ApiHandler.add_node_to_panel sp ap net).log
        = [.attemptAdd, .addFailExn (some s)]) ∧
    (net = .failure →
      (ApiHandler.add_node_to_panel sp ap net).log
        = [.attemptAdd, .addFailExn none]) ∧
    (∀ s f, net = .response s f → httpError s = false →
      ¬(s = 200 ∨ s = 201) →
      (ApiHandler.add_node_to_panel sp ap net).log
        = [.attemptAdd, .addFailStatus s f]) ∧
    ((CurlScript.add_node_to_panel sp ap net).result = .val true ↔
      ∃ s f, net = .response s f ∧ httpError s = false) := by
  have hv : (pyIntValid sp && pyIntValid ap) = true := by
    rw [hsp, hap]; rfl
  refine ⟨?_, ?_, ?_, ?_, ?_⟩
  · constructor
    · intro h
      cases net with
      | failure =>
        simp [ApiHandler.add_node_to_panel, hv] at h
      | response s f =>
        cases he : httpError s with
        | true => simp [ApiHandler.add_node_to_panel, hv, he] at h
        | false =>
          by_cases hs : s = 200 ∨ s = 201
          · exact ⟨s, f, rfl, hs⟩
          · simp [ApiHandler.add_node_to_panel, hv, he, hs] at h
    · rintro ⟨s, f, rfl, hs⟩
      have he : httpError s = false := by
        rcases hs with rfl | rfl <;> decide
      simp [ApiHandler.add_node_to_panel, hv, he, hs]
  · rintro s f rfl he
    simp [ApiHandler.add_node_to_panel, hv, he]
  · rintro rfl
    simp [ApiHandler.add_node_to_panel, hv]
  · rintro s f rfl he hs
    simp [ApiHandler.add_node_to_panel, hv, he, hs]
  · constructor
    · intro h
      cases net with
      | failure => simp [CurlScript.add_node_to_panel, hv] at h
      | response s f =>
        cases he : httpError s with
        | true => simp [CurlScript.add_node_to_panel, hv, he] at h
        | false => exact ⟨s, f, rfl, he⟩
    · rintro ⟨s, f, rfl, he⟩
      simp [CurlScript.add_node_to_panel, hv, he]

/-- C4 amended witness: the amended theorem instantiated at a 201
creation response (handler succeeds) and, through the curlscript
conjunct, at a 202 response (curlscript succeeds). -/
theorem register_amended_witness :
    (ApiHandler.add_node_to_panel "62050" "62051" (.response 201 [])).result
      = .val true ∧
    (CurlScript.add_node_to_panel "62050" "62051"
        (.response 202 [])).result = .val true :=
  ⟨(register_amended "62050" "62051" (.response 201 [])
      (by decide) (by decide)).1.mpr ⟨201, [], rfl, Or.inr rfl⟩,
    (register_amended "62050" "62051" (.response 202 [])
      (by decide) (by decide)).2.2.2.2.mpr ⟨202, [], rfl, by decide⟩⟩

/-- C5 counterexample: `__main__` emits the certificate with
`print(cert_content)`, which appends a newline — with fetched
certificate `"abc"` the bytes written to stdout are `"abc\n"`, not byte
for byte the returned string `"abc"`. -/
theorem stdout_claim_counterexample :
    ApiHandler.get_client_cert apiEnvOkCert.certNet = .val (some "abc") ∧
    (ApiHandler.mainRun apiEnvOkCert).stdout = "abc\n" ∧
    (ApiHandler.mainRun apiEnvOkCert).stdout ≠ "abc" := by
  refine ⟨by decide, by decide, by decide⟩

/-- C5 amended: for every run in which the certificate fetch returns a
non-empty certificate string c (and login succeeded, so the run reaches
the print), the bytes written to stdout are exactly c followed by one
newline — c itself is not trimmed or otherwise altered, but a single
terminating newline is appended by `print`. -/
theorem stdout_amended (env : ApiHandler.Env) (c : String)
    (hcert : ApiHandler.get_client_cert env.certNet = .val (some c))
    (hc : c ≠ "")
    (htok : pyOkOpt (ApiHandler.get_token env.tokenNet) = true) :
    (ApiHandler.mainRun env).stdout = c ++ "\n" := by
  cases h1 : ApiHandler.get_token env.tokenNet with
  | exn m => rw [h1] at htok; simp [pyOkOpt] at htok
  | val t =>
    rw [h1] at htok
    simp only [pyOkOpt] at htok
    have hcc : truthyStr (some c) = true := by simp [truthyStr, hc]
    cases h3 : (ApiHandler.add_node_to_panel env.servicePort env.apiPort
        env.addNet).result with
    | exn m =>
      simp [ApiHandler.mainRun, h1, htok, hcert, hcc, h3]
    | val b =>
      cases b <;>
        simp [ApiHandler.mainRun, h1, htok, hcert, hcc, h3]

/-- C5 amended witness: the amended theorem at the concrete environment
whose fetch returns `"abc"`. -/
theorem stdout_amended_witness :
    (ApiHandler.mainRun apiEnvOkCert).stdout = "abc" ++ "\n" :=
  stdout_amended apiEnvOkCert "abc" (by decide) (by decide) (by decide)

/-- C6: `__main__` of `smart_api_handler.py` passes
`(panel_domain, panel_port, https_enabled)` to the three panel
operations whose signatures expect
`(panel_protocol, panel_domain, panel_port)`, so the domain fills the
protocol parameter, the port fills the domain parameter and the https
boolean fills the port parameter; the URL each operation builds is
`<domain>://<port>:<True|False>/<endpoint>` (the port suffix is always
appended because a Python bool never equals the strings "80"/"443"),
and the `panel_protocol` string computed on line 103 is not among the
arguments passed. -/
theorem api_main_argument_shift (panel_domain panel_port : String)
    (https_enabled : Bool) :
    ApiHandler.mainCallArgs panel_domain panel_port https_enabled
      = (.vstr panel_domain, .vstr panel_port, .vbool https_enabled) ∧
    ApiHandler.mainTokenUrl panel_domain panel_port https_enabled
      = panel_domain ++ "://" ++ panel_port ++ ":"
        ++ (if https_enabled then "True" else "False")
        ++ "/api/admin/token" ∧
    ApiHandler.mainCertUrl panel_domain panel_port https_enabled
      = panel_domain ++ "://" ++ panel_port ++ ":"
        ++ (if https_enabled then "True" else "False")
        ++ "/api/admin/nodes/certificate" ∧
    ApiHandler.mainNodesUrl panel_domain panel_port https_enabled
      = panel_domain ++ "://" ++ panel_port ++ ":"
        ++ (if https_enabled then "True" else "False")
        ++ "/api/admin/nodes" ∧
    (ApiHandler.mainCallArgs panel_domain panel_port https_enabled).2.2
      ≠ .vstr (ApiHandler.panel_protocol https_enabled) := by
  refine ⟨rfl, ?_, ?_, ?_, by simp [ApiHandler.mainCallArgs]⟩ <;>
    simp [ApiHandler.mainTokenUrl, ApiHandler.mainCertUrl,
      ApiHandler.mainNodesUrl, ApiHandler.panelApiUrl,
      ApiHandler.pyEqStr, ApiHandler.pyFormat]

/-- C7 counterexample: the claim requires the three bootstrap failure
classes to be pairwise distinguishable in the result of the runner, but
`run_ssh_commands_on_node` returns the same value — `False` — for an
authentication failure, for a connection failure (an unreachable host or
port, whose `NoValidConnectionsError`/`socket.timeout` falls through to
the generic exception handler), and for a command failure, so the caller
cannot tell them apart from what the function returns. -/
theorem ssh_failure_result_counterexample :
    (CurlScript.run_ssh_commands_on_node .authFail "/root" "C").result
      = (CurlScript.run_ssh_commands_on_node
          (.otherExnFail "timed out") "/root" "C").result ∧
    (CurlScript.run_ssh_commands_on_node
        (.otherExnFail "timed out") "/root" "C").result
      = (CurlScript.run_ssh_commands_on_node
          (.ok execAllFail) "/root" "C").result ∧
    (CurlScript.run_ssh_commands_on_node .authFail "/root" "C").result
      = false := by
  refine ⟨by decide, by decide, by decide⟩

/-- C7 amended: all three failure classes make the runner return the
same `False`, so they are not distinguishable in its result.  The
diagnostic (stderr) log distinguishes them only partially: bad
credentials log the distinct authentication message and a mid-sequence
command failure logs the distinct command-failure entry (exit status and
stderr), each absent from every other class; but an unreachable host or
port raises a socket-level error (not `paramiko.SSHException`), so it
reaches only the generic exception handler and logs just the generic
wrapper message with no class-specific marker — the distinct
"SSH connection failed" message is logged only for SSH protocol-level
(`SSHException`) connect failures, not for the unreachable-host case. -/
theorem ssh_failure_taxonomy_amended (home cert emsg : String)
    (exec : String → CurlScript.ExecResult) :
    ((CurlScript.run_ssh_commands_on_node .authFail home cert).result
        = false ∧
      (CurlScript.run_ssh_commands_on_node .sshExnFail home cert).result
        = false ∧
      (CurlScript.run_ssh_commands_on_node (.otherExnFail emsg)
          home cert).result = false) ∧
    (CurlScript.SshLog.authError
        ∈ (CurlScript.run_ssh_commands_on_node .authFail home cert).log ∧
      CurlScript.SshLog.authError
        ∉ (CurlScript.run_ssh_commands_on_node .sshExnFail home cert).log ∧
      CurlScript.SshLog.authError
        ∉ (CurlScript.run_ssh_commands_on_node (.otherExnFail emsg)
            home cert).log ∧
      CurlScript.SshLog.authError
        ∉ (CurlScript.run_ssh_commands_on_node (.ok exec) home cert).log) ∧
    (CurlScript.SshLog.connError
        ∈ (CurlScript.run_ssh_commands_on_node .sshExnFail home cert).log ∧
      CurlScript.SshLog.connError
        ∉ (CurlScript.run_ssh_commands_on_node (.otherExnFail emsg)
            home cert).log ∧
      CurlScript.SshLog.connError
        ∉ (CurlScript.run_ssh_commands_on_node .authFail home cert).log ∧
      CurlScript.SshLog.connError
        ∉ (CurlScript.run_ssh_commands_on_node (.ok exec) home cert).log) ∧
    ((CurlScript.run_ssh_commands_on_node (.otherExnFail emsg)
        home cert).log
        = [.connecting, .errorDuring emsg, .closed] ∧
      ∀ st e, CurlScript.SshLog.cmdFail st e
        ∉ (CurlScript.run_ssh_commands_on_node (.otherExnFail emsg)
            home cert).log) ∧
    (∀ st e,
      CurlScript.SshLog.cmdFail st e
        ∉ (CurlScript.run_ssh_commands_on_node .authFail home cert).log ∧
      CurlScript.SshLog.cmdFail st e
        ∉ (CurlScript.run_ssh_commands_on_node .sshExnFail home cert).log) ∧
    (∀ pre c post,
      CurlScript.sshCommands home cert = pre ++ c :: post →
      (∀ x ∈ pre, (exec x).status = 0) →
      (exec c).status ≠ 0 →
      (CurlScript.run_ssh_commands_on_node (.ok exec) home cert).result
        = false ∧
      CurlScript.SshLog.cmdFail (exec c).status (pyStrip (exec c).err)
        ∈ (CurlScript.run_ssh_commands_on_node (.ok exec) home cert).log) := by
  have hm := runCmds_no_conn_markers exec (CurlScript.sshCommands home cert)
  refine ⟨?_, ?_, ?_, ?_, ?_, ?_⟩
  · simp [CurlScript.run_ssh_commands_on_node]
  · refine ⟨?_, ?_, ?_, ?_⟩ <;>
      simp [CurlScript.run_ssh_commands_on_node, hm.1]
  · refine ⟨?_, ?_, ?_, ?_⟩ <;>
      simp [CurlScript.run_ssh_commands_on_node, hm.2]
  · simp [CurlScript.run_ssh_commands_on_node]
  · simp [CurlScript.run_ssh_commands_on_node]
  intro pre c post hdecomp hpre hc
  have h := runCmds_first_fail exec pre c post hpre hc
  simp only [CurlScript.run_ssh_commands_on_node, hdecomp]
  exact ⟨h.2.1, by simp [h.2.2.1]⟩

/-- C7 amended witness: the command-failure conjunct instantiated at the
session that fails on the second bootstrap command, together with the
generic-only log of an unreachable-host connect failure. -/
theorem ssh_failure_taxonomy_amended_witness :
    (CurlScript.run_ssh_commands_on_node (.ok execW) "/root" "CERT").result
      = false ∧
    (CurlScript.run_ssh_commands_on_node (.otherExnFail "timed out")
        "/root" "CERT").log
      = [.connecting, .errorDuring "timed out", .closed] := by
  have h := ssh_failure_taxonomy_amended "/root" "CERT" "timed out" execW
  exact ⟨(h.2.2.2.2.2 ["sudo ufw disable"]
      "curl -fsSL https://get.docker.com | sh"
      (List.drop 2 (CurlScript.sshCommands "/root" "CERT"))
      (by rfl) (by decide) (by decide)).1,
    h.2.2.2.1.1⟩

/-- C8: calling `add_node_to_panel` (either variant) with a service-port
or api-port string that is not a valid Python integer fails before any
network call — `int()` raises `ValueError` while building
`node_information`, ahead of the `try` block containing the POST, so no
HTTP request is issued to the panel. -/
theorem register_port_validation (sp ap : String) (net : NetOutcome)
    (h : pyIntValid sp = false ∨ pyIntValid ap = false) :
    (ApiHandler.add_node_to_panel sp ap net).requested = false ∧
    (ApiHandler.add_node_to_panel sp ap net).result = .exn "ValueError" ∧
    (CurlScript.add_node_to_panel sp ap net).requested = false ∧
    (CurlScript.add_node_to_panel sp ap net).result = .exn "ValueError" := by
  have hv : (pyIntValid sp && pyIntValid ap) = false := by
    rcases h with h | h <;> simp [h]
  simp [ApiHandler.add_node_to_panel, CurlScript.add_node_to_panel, hv]

/-- C8 witness: the validation theorem at the non-integer service port
`"62o50"`. -/
theorem register_port_validation_witness :
    (ApiHandler.add_node_to_panel "62o50" "62051"
        (.response 200 [])).requested = false ∧
    (ApiHandler.add_node_to_panel "62o50" "62051"
        (.response 200 [])).result = .exn "ValueError" ∧
    (CurlScript.add_node_to_panel "62o50" "62051"
        (.response 200 [])).requested = false ∧
    (CurlScript.add_node_to_panel "62o50" "62051"
        (.response 200 [])).result = .exn "ValueError" :=
  register_port_validation "62o50" "62051" (.response 200 [])
    (Or.inl (by decide))

/-- Stripping a literal prefix from that prefix followed by anything
succeeds and returns the remainder. -/
theorem dropPre_self : ∀ (p xs : List Char), dropPre p (p ++ xs) = some xs
  | [], _ => rfl
  | c :: p, xs => by simp [dropPre, dropPre_self p xs]

/-- Scanning a double-quoted region whose content has no shell-special
character consumes the content up to the closing quote. -/
theorem dqScan_plain : ∀ (cs rest : List Char),
    (∀ c ∈ cs, dqSpecial c = false) →
    dqScan (cs ++ '\x22' :: rest) = some (cs, rest)
  | [], rest, _ => by simp [dqScan]
  | c :: cs, rest, h => by
    have hc : dqSpecial c = false := h c (by simp)
    have hq : ¬(c = '\x22') := by
      intro hcq
      rw [hcq] at hc
      simp [dqSpecial] at hc
    simp [dqScan, hq, hc,
      dqScan_plain cs rest (fun y hy => h y (List.mem_cons_of_mem c hy))]

/-- C9 counterexample: for the certificate `"abc"`, bootstrap step 8
(`sudo echo "abc" > /var/lib/marzban-node/ssl_client_cert.pem`) makes the
remote shell write `"abc\n"` — `echo` appends a newline — so the file
content is not byte-for-byte equal to the certificate string. -/
theorem cert_write_claim_counterexample :
    echoWriteTarget (CurlScript.certWriteCmd "abc")
      = some ("/var/lib/marzban-node/ssl_client_cert.pem", "abc\n") ∧
    "abc\n" ≠ "abc" := by
  refine ⟨by decide, by decide⟩

/-- C9 amended: bootstrap step 8 is the command
`sudo echo "<cert>" > /var/lib/marzban-node/ssl_client_cert.pem`; for
every certificate string containing no character that is special inside
shell double quotes (double quote, backslash, dollar, backtick), the
remote shell writes the certificate followed by one appended newline to
that fixed path — not byte-for-byte the certificate, and not for
arbitrary content (shell-special content is reinterpreted by the remote
shell rather than written verbatim). -/
theorem cert_write_amended (home cert : String) (hplain : shellPlain cert) :
    List.get? (CurlScript.sshCommands home cert) 7
      = some (CurlScript.certWriteCmd cert) ∧
    echoWriteTarget (CurlScript.certWriteCmd cert)
      = some ("/var/lib/marzban-node/ssl_client_cert.pem", cert ++ "\n") := by
  refine ⟨rfl, ?_⟩
  have hdata : (CurlScript.certWriteCmd cert).data
      = ("sudo echo \x22").data ++ (cert.data
        ++ ('\x22' :: (" > /var/lib/marzban-node/ssl_client_cert.pem").data))
      := by
    simp [CurlScript.certWriteCmd, String.data_append, List.append_assoc]
  have hscan : dqScan (cert.data
      ++ '\x22' :: (" > /var/lib/marzban-node/ssl_client_cert.pem").data)
      = some (cert.data,
          (" > /var/lib/marzban-node/ssl_client_cert.pem").data) :=
    dqScan_plain cert.data _ (fun c hc => hplain c hc)
  have htail : (" > /var/lib/marzban-node/ssl_client_cert.pem").data
      = (" > ").data ++ ("/var/lib/marzban-node/ssl_client_cert.pem").data
      := rfl
  simp only [echoWriteTarget, hdata, dropPre_self, hscan, htail]
  rfl

/-- C9 amended witness: the amended theorem at the plain certificate
`"MYCERT"`. -/
theorem cert_write_amended_witness :
    List.get? (CurlScript.sshCommands "/root" "MYCERT") 7
      = some (CurlScript.certWriteCmd "MYCERT") ∧
    echoWriteTarget (CurlScript.certWriteCmd "MYCERT")
      = some ("/var/lib/marzban-node/ssl_client_cert.pem",
          "MYCERT" ++ "\n") :=
  cert_write_amended "/root" "MYCERT" (by decide)

/-- Exit-code characterisation for the handler variant: exit 0 exactly
when login, fetch and registration all succeeded. -/
theorem api_exit_iff (env : ApiHandler.Env) :
    (ApiHandler.mainRun env).exitCode = 0 ↔ ApiHandler.allOk env = true := by
  cases h1 : ApiHandler.get_token env.tokenNet with
  | exn m => simp [ApiHandler.mainRun, ApiHandler.allOk, h1, pyOkOpt]
  | val t =>
    cases ht : truthyStr t with
    | false =>
      simp [ApiHandler.mainRun, ApiHandler.allOk, h1, ht, pyOkOpt]
    | true =>
      cases h2 : ApiHandler.get_client_cert env.certNet with
      | exn m =>
        simp [ApiHandler.mainRun, ApiHandler.allOk, h1, ht, h2, pyOkOpt]
      | val co =>
        cases hc : truthyStr co with
        | false =>
          simp [ApiHandler.mainRun, ApiHandler.allOk, h1, ht, h2, hc,
            pyOkOpt]
        | true =>
          cases h3 : (ApiHandler.add_node_to_panel env.servicePort
              env.apiPort env.addNet).result with
          | exn m =>
            simp [ApiHandler.mainRun, ApiHandler.allOk, h1, ht, h2, hc, h3,
              pyOkOpt, pyOkBool]
          | val b =>
            cases b <;>
              simp [ApiHandler.mainRun, ApiHandler.allOk, h1, ht, h2, hc,
                h3, pyOkOpt, pyOkBool]

/-- Exit-code characterisation for the combined variant: exit 0 exactly
when login, fetch, registration and bootstrap all succeeded. -/
theorem curl_exit_iff (env : CurlScript.Env) :
    (CurlScript.mainRun env).exitCode = 0 ↔ CurlScript.allOk env = true := by
  cases h1 : CurlScript.get_access_token env.tokenNet with
  | exn m => simp [CurlScript.mainRun, CurlScript.allOk, h1, pyOkOpt]
  | val t =>
    cases ht : truthyStr t with
    | false =>
      simp [CurlScript.mainRun, CurlScript.allOk, h1, ht, pyOkOpt]
    | true =>
      cases h2 : CurlScript.get_cert env.certNet with
      | exn m =>
        simp [CurlScript.mainRun, CurlScript.allOk, h1, ht, h2, pyOkOpt]
      | val co =>
        cases co with
        | none =>
          have hn : truthyStr (none : Option String) = false := rfl
          simp [CurlScript.mainRun, CurlScript.allOk, h1, ht, h2, pyOkOpt,
            hn]
        | some c =>
          cases hc : truthyStr (some c) with
          | false =>
            simp [CurlScript.mainRun, CurlScript.allOk, h1, ht, h2, hc,
              pyOkOpt]
          | true =>
            cases h3 : (CurlScript.add_node_to_panel env.servicePort
                env.apiPort env.addNet).result with
            | exn m =>
              simp [CurlScript.mainRun, CurlScript.allOk, h1, ht, h2, hc,
                h3, pyOkOpt, pyOkBool]
            | val b =>
              cases b with
              | false =>
                simp [CurlScript.mainRun, CurlScript.allOk, h1, ht, h2, hc,
                  h3, pyOkOpt, pyOkBool]
              | true =>
                cases hs : (CurlScript.run_ssh_commands_on_node env.conn
                    env.home c).result <;>
                  simp [CurlScript.mainRun, CurlScript.allOk, h1, ht, h2,
                    hc, h3, hs, pyOkOpt, pyOkBool, certOf]

/-- C10: in both variants the process exit code is 0 exactly when every
stage succeeded; when a stage fails, the exit code is non-zero and the
later stages are not attempted (login failure stops before the fetch,
fetch failure stops before registration, and — in the combined variant —
registration failure stops before the bootstrap). -/
theorem exit_code_discipline (ae : ApiHandler.Env) (ce : CurlScript.Env) :
    ((ApiHandler.mainRun ae).exitCode = 0 ↔ ApiHandler.allOk ae = true) ∧
    ((CurlScript.mainRun ce).exitCode = 0 ↔ CurlScript.allOk ce = true) ∧
    (pyOkOpt (ApiHandler.get_token ae.tokenNet) = false →
      (ApiHandler.mainRun ae).trace = [.login]) ∧
    (pyOkOpt (ApiHandler.get_client_cert ae.certNet) = false →
      Step.register ∉ (ApiHandler.mainRun ae).trace) ∧
    (pyOkOpt (CurlScript.get_access_token ce.tokenNet) = false →
      (CurlScript.mainRun ce).trace = [.login]) ∧
    (pyOkOpt (CurlScript.get_cert ce.certNet) = false →
      Step.register ∉ (CurlScript.mainRun ce).trace ∧
      Step.bootstrap ∉ (CurlScript.mainRun ce).trace) ∧
    (pyOkBool (CurlScript.add_node_to_panel ce.servicePort ce.apiPort
        ce.addNet).result = false →
      Step.bootstrap ∉ (CurlScript.mainRun ce).trace) := by
  refine ⟨api_exit_iff ae, curl_exit_iff ce, ?_, ?_, ?_, ?_, ?_⟩
  · intro h
    cases h1 : ApiHandler.get_token ae.tokenNet with
    | exn m => simp [ApiHandler.mainRun, h1]
    | val t =>
      rw [h1] at h
      simp only [pyOkOpt] at h
      simp [ApiHandler.mainRun, h1, h]
  · intro h
    cases h1 : ApiHandler.get_token ae.tokenNet with
    | exn m => simp [ApiHandler.mainRun, h1]
    | val t =>
      cases ht : truthyStr t with
      | false => simp [ApiHandler.mainRun, h1, ht]
      | true =>
        cases h2 : ApiHandler.get_client_cert ae.certNet with
        | exn m => simp [ApiHandler.mainRun, h1, ht, h2]
        | val co =>
          rw [h2] at h
          simp only [pyOkOpt] at h
          simp [ApiHandler.mainRun, h1, ht, h2, h]
  · intro h
    cases h1 : CurlScript.get_access_token ce.tokenNet with
    | exn m => simp [CurlScript.mainRun, h1]
    | val t =>
      rw [h1] at h
      simp only [pyOkOpt] at h
      simp [CurlScript.mainRun, h1, h]
  · intro h
    cases h1 : CurlScript.get_access_token ce.tokenNet with
    | exn m => simp [CurlScript.mainRun, h1]
    | val t =>
      cases ht : truthyStr t with
      | false => simp [CurlScript.mainRun, h1, ht]
      | true =>
        cases h2 : CurlScript.get_cert ce.certNet with
        | exn m => simp [CurlScript.mainRun, h1, ht, h2]
        | val co =>
          rw [h2] at h
          simp only [pyOkOpt] at h
          simp [CurlScript.mainRun, h1, ht, h2, h]
  · intro h
    cases h1 : CurlScript.get_access_token ce.tokenNet with
    | exn m => simp [CurlScript.mainRun, h1]
    | val t =>
      cases ht : truthyStr t with
      | false => simp [CurlScript.mainRun, h1, ht]
      | true =>
        cases h2 : CurlScript.get_cert ce.certNet with
        | exn m => simp [CurlScript.mainRun, h1, ht, h2]
        | val co =>
          cases hc : truthyStr co with
          | false => simp [CurlScript.mainRun, h1, ht, h2, hc]
          | true =>
            cases h3 : (CurlScript.add_node_to_panel ce.servicePort
                ce.apiPort ce.addNet).result with
            | exn m => simp [CurlScript.mainRun, h1, ht, h2, hc, h3]
            | val b =>
              rw [h3] at h
              simp only [pyOkBool] at h
              simp [CurlScript.mainRun, h1, ht, h2, hc, h3, h]

/-- C10 witness: a fully successful handler-variant run exits 0, and a
combined-variant run whose registration hits a 500 never attempts the
bootstrap stage. -/
theorem exit_code_discipline_witness :
    (ApiHandler.mainRun apiEnvOkCert).exitCode = 0 ∧
    Step.bootstrap ∉ (CurlScript.mainRun curlEnvAddFail).trace :=
  ⟨(exit_code_discipline apiEnvOkCert curlEnvAddFail).1.mpr (by decide),
    (exit_code_discipline apiEnvOkCert curlEnvAddFail).2.2.2.2.2.2
      (by decide)⟩

/-- C6 witness: the argument-shift theorem at a concrete domain, port and
https flag. -/
theorem api_main_argument_shift_witness :
    ApiHandler.mainTokenUrl "panel.example.com" "8443" true
      = "panel.example.com" ++ "://" ++ "8443" ++ ":"
        ++ (if true then "True" else "False") ++ "/api/admin/token" :=
  (api_main_argument_shift "panel.example.com" "8443" true).2.1
